import Mathlib

/-!
Shallow embedding of the two bot scripts of this repository
(`run_pvz.py` and `weather_bot.py`) and proofs about the per-chat
message-cleanup protocol, the lock registry, the post-cycle tracking
commit, the container-control command handlers, and the weather bot's
reply logic.

Conventions of the embedding:
* `CHAT_MESSAGE_STORE : Dict[int, List[int]]` is modelled as a total
  function `Store := Nat → List Nat`; `dict.get(chat_id, [])` is the
  plain application `store chatId` (absent keys read as `[]`).
* `CHAT_LOCKS : Dict[int, asyncio.Lock]` is modelled by `Locks`:
  a partial map from chat id to an abstract lock token together with a
  counter supplying fresh tokens (lock objects have identity, nothing
  else observable).
* Calls into the messaging transport and into docker are modelled by
  oracles passed as arguments: `del` gives the outcome of each
  `delete_message` call, `sends n` gives the outcome of the `n`-th
  `reply_text` call of a handler invocation, `getC` the outcome of
  `client.containers.get` (the container's `status` attribute on
  success), `startRes` the outcome of `container.start()`.
* A Python function that can raise to its caller is embedded with an
  explicit `raised` flag (or `Except`); `try/except` blocks are embedded
  by the corresponding case split on the oracle's outcome.
-/

namespace TgBot

/-- Chat identifier (opaque integer in the source). -/
abbrev ChatId := Nat

/-- Message identifier (opaque integer in the source). -/
abbrev MessageId := Nat

/-- Model of `CHAT_MESSAGE_STORE`: chat id to tracked message ids,
reading absent keys as the empty list, as `dict.get(chat_id, [])` does. -/
abbrev Store := ChatId → List MessageId

/-- Dictionary assignment `store[c] = v`. -/
def updateStore (store : Store) (c : ChatId) (v : List MessageId) : Store :=
  fun c' => if c' = c then v else store c'

/-- Model of `CHAT_LOCKS` plus a supply of fresh lock tokens: `registry c`
is the lock token held for chat `c` (if any), `nextId` the token
`asyncio.Lock()` would allocate next. -/
structure Locks where
  registry : ChatId → Option Nat
  nextId : Nat

/-- Embeds `_ensure_lock` (run_pvz.py lines 38-43): return the existing
lock for `chat_id` if present, otherwise create one, store it, return it. -/
def ensure_lock (chatId : ChatId) (s : Locks) : Nat × Locks :=
  match s.registry chatId with
  | some lock => (lock, s)
  | none =>
      let lock := s.nextId
      (lock, ⟨fun c' => if c' = chatId then some lock else s.registry c', s.nextId + 1⟩)

/-- Embeds the deletion loop of `clean_chat` (run_pvz.py lines 67-73):
for each previously tracked id, attempt `delete_message`; an exception
from a single deletion is caught and ignored, and the loop continues.
The returned list records the `(chat_id, message_id)` pairs for which a
deletion was attempted, in order. -/
def deleteLoop (chatId : ChatId) (del : ChatId → MessageId → Except String Unit) :
    List MessageId → List (ChatId × MessageId)
  | [] => []
  | mid :: rest =>
      match del chatId mid with
      | Except.ok _ => (chatId, mid) :: deleteLoop chatId del rest
      | Except.error _ => (chatId, mid) :: deleteLoop chatId del rest

/-- Result of one `clean_chat` call: the store and lock registry after the
call, and the deletions that were attempted. -/
structure CleanOut where
  store : Store
  locks : Locks
  deletes : List (ChatId × MessageId)

/-- Embeds `clean_chat` (run_pvz.py lines 46-78). In a non-private chat
it returns immediately; otherwise it ensures the chat's lock, snapshots
the tracked ids, attempts to delete each one (failures ignored), and
replaces the store entry with `[cmd_mid]`. The surrounding
`try/except Exception` means no error propagates to the caller; in the
embedding the function is total. -/
def clean_chat (chatType : String) (chatId : ChatId) (cmdMid : MessageId)
    (del : ChatId → MessageId → Except String Unit)
    (store : Store) (locks : Locks) : CleanOut :=
  if chatType ≠ "private" then
    ⟨store, locks, []⟩
  else
    let lockAcq := ensure_lock chatId locks
    let prev_ids := store chatId
    let attempts := deleteLoop chatId del prev_ids
    ⟨updateStore store chatId [cmdMid], lockAcq.2, attempts⟩

/-- Embeds the tracking block at the end of each command handler
(run_pvz.py lines 102-107, 146-151, 178-183):
`if reply is not None: CHAT_MESSAGE_STORE[chat_id] = [cmd_mid, reply.message_id]`.
With no reply the store is not written at all. -/
def record_exchange (chatId : ChatId) (cmdMid : MessageId)
    (reply : Option MessageId) (store : Store) : Store :=
  match reply with
  | some rmid => updateStore store chatId [cmdMid, rmid]
  | none => store

/-- Outcomes of a docker call, mirroring the exception classes the
handlers distinguish: `docker.errors.NotFound`, `docker.errors.APIError`,
any other `Exception`. -/
inductive DockerErr where
  | notFound
  | apiError (msg : String)
  | otherError (msg : String)

/-- Final state of one handler invocation: the store and lock registry,
the reply message id (when one was obtained), the reply texts handed to
`reply_text` in order, the deletions attempted by cleanup, whether
`container.start()` was invoked, and whether an exception escaped the
handler (in which case the tracking block never ran). -/
structure HandlerOut where
  store : Store
  locks : Locks
  reply : Option MessageId
  texts : List String
  deletes : List (ChatId × MessageId)
  startCalled : Bool
  raised : Bool

/-- Embeds `status_pvzge_command` (run_pvz.py lines 82-107). `getC` is
the outcome of `client.containers.get` (`Except.ok status` carries the
container's status attribute), `sends n` the outcome of the `n`-th
`reply_text` call of this invocation. -/
def status_pvzge_command (chatType : String) (chatId : ChatId) (cmdMid : MessageId)
    (getC : Except DockerErr String)
    (del : ChatId → MessageId → Except String Unit)
    (sends : Nat → Except String MessageId)
    (store : Store) (locks : Locks) : HandlerOut :=
  match getC with
  | Except.ok status =>
      let c :=
        if chatType = "private" then clean_chat chatType chatId cmdMid del store locks
        else ⟨store, locks, []⟩
      let text := "The Plants vs. Zombies container status is: " ++ status ++ "."
      match sends 0 with
      | Except.ok rmid =>
          ⟨record_exchange chatId cmdMid (some rmid) c.store, c.locks, some rmid,
            [text], c.deletes, false, false⟩
      | Except.error _ =>
          -- reply_text raised inside the try block: caught by `except Exception`,
          -- which sends the generic error text
          let text2 := "An error occurred while trying to check the container status."
          match sends 1 with
          | Except.ok rmid =>
              ⟨record_exchange chatId cmdMid (some rmid) c.store, c.locks, some rmid,
                [text, text2], c.deletes, false, false⟩
          | Except.error _ =>
              ⟨c.store, c.locks, none, [text, text2], c.deletes, false, true⟩
  | Except.error DockerErr.notFound =>
      let text := "The Plants vs. Zombies container was not found."
      match sends 0 with
      | Except.ok rmid =>
          ⟨record_exchange chatId cmdMid (some rmid) store, locks, some rmid,
            [text], [], false, false⟩
      | Except.error _ => ⟨store, locks, none, [text], [], false, true⟩
  | Except.error (DockerErr.apiError _) =>
      let text := "A Docker API error occurred while trying to check the container status."
      match sends 0 with
      | Except.ok rmid =>
          ⟨record_exchange chatId cmdMid (some rmid) store, locks, some rmid,
            [text], [], false, false⟩
      | Except.error _ => ⟨store, locks, none, [text], [], false, true⟩
  | Except.error (DockerErr.otherError _) =>
      let text := "An error occurred while trying to check the container status."
      match sends 0 with
      | Except.ok rmid =>
          ⟨record_exchange chatId cmdMid (some rmid) store, locks, some rmid,
            [text], [], false, false⟩
      | Except.error _ => ⟨store, locks, none, [text], [], false, true⟩

/-- Embeds `run_pvz_command` (run_pvz.py lines 118-151). On a found
container whose status is `running`, no start call is made; otherwise
`container.start()` is invoked (outcome `startRes`) before cleanup and
the started reply. Docker errors raised by `get` or by `start` are
mapped by the shared `except` clauses. -/
def run_pvz_command (chatType : String) (chatId : ChatId) (cmdMid : MessageId)
    (getC : Except DockerErr String) (startRes : Except DockerErr Unit)
    (del : ChatId → MessageId → Except String Unit)
    (sends : Nat → Except String MessageId)
    (store : Store) (locks : Locks) : HandlerOut :=
  let notFoundOut : HandlerOut → HandlerOut := fun base =>
    let text := "The Plants vs. Zombies container was not found."
    match sends 0 with
    | Except.ok rmid =>
        { base with
          store := record_exchange chatId cmdMid (some rmid) base.store
          reply := some rmid
          texts := [text]
          raised := false }
    | Except.error _ =>
        { base with
          reply := none
          texts := [text]
          raised := true }
  let apiErrorOut : HandlerOut → HandlerOut := fun base =>
    let text := "A Docker API error occurred while trying to start the container."
    match sends 0 with
    | Except.ok rmid =>
        { base with
          store := record_exchange chatId cmdMid (some rmid) base.store
          reply := some rmid
          texts := [text]
          raised := false }
    | Except.error _ =>
        { base with
          reply := none
          texts := [text]
          raised := true }
  let otherErrorOut : HandlerOut → HandlerOut := fun base =>
    let text := "An error occurred while trying to start the container."
    match sends 0 with
    | Except.ok rmid =>
        { base with
          store := record_exchange chatId cmdMid (some rmid) base.store
          reply := some rmid
          texts := [text]
          raised := false }
    | Except.error _ =>
        { base with
          reply := none
          texts := [text]
          raised := true }
  match getC with
  | Except.ok status =>
      if status = "running" then
        let c :=
          if chatType = "private" then clean_chat chatType chatId cmdMid del store locks
          else ⟨store, locks, []⟩
        let text := "The Plants vs. Zombies container is already running, opening in browser..."
        match sends 0 with
        | Except.ok rmid =>
            ⟨record_exchange chatId cmdMid (some rmid) c.store, c.locks, some rmid,
              [text], c.deletes, false, false⟩
        | Except.error _ =>
            let text2 := "An error occurred while trying to start the container."
            match sends 1 with
            | Except.ok rmid =>
                ⟨record_exchange chatId cmdMid (some rmid) c.store, c.locks, some rmid,
                  [text, text2], c.deletes, false, false⟩
            | Except.error _ =>
                ⟨c.store, c.locks, none, [text, text2], c.deletes, false, true⟩
      else
        -- container.start() is invoked; a docker error from it is caught by
        -- the handler's except clauses
        match startRes with
        | Except.ok _ =>
            let c :=
              if chatType = "private" then clean_chat chatType chatId cmdMid del store locks
              else ⟨store, locks, []⟩
            let text := "The Plants vs. Zombies container has been started. Open http://localhost:8080"
            match sends 0 with
            | Except.ok rmid =>
                ⟨record_exchange chatId cmdMid (some rmid) c.store, c.locks, some rmid,
                  [text], c.deletes, true, false⟩
            | Except.error _ =>
                let text2 := "An error occurred while trying to start the container."
                match sends 1 with
                | Except.ok rmid =>
                    ⟨record_exchange chatId cmdMid (some rmid) c.store, c.locks, some rmid,
                      [text, text2], c.deletes, true, false⟩
                | Except.error _ =>
                    ⟨c.store, c.locks, none, [text, text2], c.deletes, true, true⟩
        | Except.error DockerErr.notFound =>
            notFoundOut ⟨store, locks, none, [], [], true, false⟩
        | Except.error (DockerErr.apiError _) =>
            apiErrorOut ⟨store, locks, none, [], [], true, false⟩
        | Except.error (DockerErr.otherError _) =>
            otherErrorOut ⟨store, locks, none, [], [], true, false⟩
  | Except.error DockerErr.notFound =>
      notFoundOut ⟨store, locks, none, [], [], false, false⟩
  | Except.error (DockerErr.apiError _) =>
      apiErrorOut ⟨store, locks, none, [], [], false, false⟩
  | Except.error (DockerErr.otherError _) =>
      otherErrorOut ⟨store, locks, none, [], [], false, false⟩

/-! Embedding of `weather_bot.py`. -/

/-- Python substring containment `needle in hay`, on character lists. -/
def containsSub (needle : List Char) : List Char → Bool
  | [] => needle.isEmpty
  | c :: t => needle.isPrefixOf (c :: t) || containsSub needle t

/-- Python `str.strip()`: drop whitespace from both ends. -/
def pyStrip (s : String) : String :=
  String.mk (((s.toList.dropWhile Char.isWhitespace).reverse.dropWhile
    Char.isWhitespace).reverse)

/-- Python `str.lower()`: lowercase every character. -/
def pyLower (s : String) : String :=
  String.mk (s.toList.map Char.toLower)

/-- Python `str.capitalize()`: first character uppercased, the rest
lowercased. -/
def pyCapitalize (s : String) : String :=
  match s.toList with
  | [] => ""
  | c :: rest => String.mk (c.toUpper :: rest.map Char.toLower)

/-- The weather bot's name constant (weather_bot.py line 19). -/
def BOT_NAME : String := "@OrdinaryWeather_bot"

/-- Fields the weather handler reads out of the JSON body, each `none`
when the corresponding key is missing (the `dict.get` defaults are
applied inside `weather_command`). Values are kept pre-rendered as the
strings they print as. -/
structure WeatherBody where
  temp : Option String
  feels_like : Option String
  description : Option String
  speed : Option String

/-- Outcome of the HTTP fetch in `weather_command`: a response with a
status code and body, an `aiohttp.ClientError`, or any other exception. -/
inductive FetchResult where
  | response (statusCode : Nat) (body : WeatherBody)
  | clientError (msg : String)
  | unexpectedError (msg : String)

/-- Result of one `weather_command` invocation: the reply texts sent (in
order) and whether the weather service was contacted. -/
structure WeatherOut where
  texts : List String
  serviceCalled : Bool

/-- Embeds `weather_command` (weather_bot.py lines 30-72). Empty args
short-circuit to the usage reply before any HTTP call; otherwise the
city is `" ".join(args).strip()` and the fetch outcome is mapped to
exactly one reply. -/
def weather_command (args : List String) (fetch : FetchResult) : WeatherOut :=
  if args.isEmpty then
    ⟨["Usage: /weather <city>"], false⟩
  else
    let city := pyStrip (String.intercalate " " args)
    match fetch with
    | FetchResult.response code body =>
        if code = 404 then
          ⟨["City \x27" ++ city ++ "\x27 not found."], true⟩
        else if code ≠ 200 then
          ⟨["Error fetching weather data. Please try again later."], true⟩
        else
          let temperature := body.temp.getD "N/A"
          let feels_like := body.feels_like.getD "N/A"
          let description := body.description.getD "No description available"
          let wind_speed := body.speed.getD "N/A"
          let reply_text :=
            "Weather in " ++ city ++ ":\n" ++
            pyCapitalize description ++ "\n" ++
            "Temperature: " ++ temperature ++ "°C\n" ++
            "Feels like: " ++ feels_like ++ "°C\n" ++
            "Wind speed: " ++ wind_speed ++ " m/s"
          ⟨[reply_text], true⟩
    | FetchResult.clientError _ =>
        ⟨["Error fetching weather data. Please try again later."], true⟩
    | FetchResult.unexpectedError _ =>
        ⟨["An unexpected error occurred. Please try again later."], true⟩

/-- Embeds `response_handler` (weather_bot.py lines 91-97). -/
def response_handler (text : String) : String :=
  let processed := pyLower text
  if containsSub "hello".toList processed.toList then "Hey"
  else "What?"

/-- Embeds `message_handler` (weather_bot.py lines 99-115): in a group
chat a message not mentioning `BOT_NAME` gets no reply; one mentioning
it gets `response_handler` applied to the text with the mention removed
and stripped; outside groups `response_handler` is applied directly. -/
def message_handler (chatType text : String) : Option String :=
  if chatType = "group" then
    if containsSub BOT_NAME.toList text.toList then
      some (response_handler (pyStrip (text.replace BOT_NAME "")))
    else
      none
  else
    some (response_handler text)

/-! Helper lemmas shared by the claim theorems. -/

/-- Reading back the entry just assigned. -/
theorem updateStore_self (store : Store) (c : ChatId) (v : List MessageId) :
    updateStore store c v c = v := by
  simp [updateStore]

/-- Assignment to one key leaves every other key unchanged. -/
theorem updateStore_ne (store : Store) (c c' : ChatId) (v : List MessageId)
    (h : c' ≠ c) : updateStore store c v c' = store c' := by
  simp [updateStore, h]

/-- The deletion loop attempts every snapshot entry exactly once, in
order, whatever the outcomes of the individual deletions are. -/
theorem deleteLoop_eq_map (chatId : ChatId)
    (del : ChatId → MessageId → Except String Unit) (l : List MessageId) :
    deleteLoop chatId del l = l.map (fun mid => (chatId, mid)) := by
  induction l with
  | nil => rfl
  | cons mid rest ih =>
      cases h : del chatId mid <;> simp [deleteLoop, h, ih]

/-- Creating or fetching the lock of chat `c` does not touch the
registry entry of any other chat `c'`. -/
theorem ensure_lock_frame (c c' : ChatId) (s : Locks) (h : c' ≠ c) :
    (ensure_lock c s).2.registry c' = s.registry c' := by
  cases hr : s.registry c <;> simp [ensure_lock, hr, h]

/-! Claim theorems. -/

/-- C1: for every chat id, incoming message id, deletion-outcome oracle
and prior store and registry contents, a cleanup cycle in a private
conversation leaves the store entry of that chat equal to exactly the
one-element list `[incoming_message_id]`. -/
theorem clean_chat_private_resets (chatId : ChatId) (cmdMid : MessageId)
    (del : ChatId → MessageId → Except String Unit)
    (store : Store) (locks : Locks) :
    (clean_chat "private" chatId cmdMid del store locks).store chatId = [cmdMid] := by
  simp [clean_chat, updateStore]

/-- C2 counterexample: at the tracking step, with no reply produced, the
store entry is left untouched (here `[9]`) instead of being overwritten
with the one-element list `[5]` of the command message id. -/
theorem record_exchange_none_counterexample :
    (record_exchange 1 5 none (fun _ => [9])) 1 ≠ [5] := by
  decide

/-- C2 amended: the tracking step overwrites the chat's tracked set with
`[command_message_id, reply_message_id]` when a reply was produced, and
performs no write at all (leaving the store unchanged) when none was. -/
theorem record_exchange_spec (chatId : ChatId) (cmdMid rmid : MessageId)
    (store : Store) :
    (record_exchange chatId cmdMid (some rmid) store) chatId = [cmdMid, rmid] ∧
    record_exchange chatId cmdMid none store = store :=
  ⟨updateStore_self store chatId [cmdMid, rmid], rfl⟩

/-- C3: even when the deletion of some tracked message id fails, the
cleanup cycle still attempts every entry of the snapshot (in particular
all subsequent ones), still replaces the store entry with
`[incoming_message_id]`, and returns normally. -/
theorem clean_chat_deletion_failure_tolerant (chatId : ChatId)
    (cmdMid : MessageId) (del : ChatId → MessageId → Except String Unit)
    (store : Store) (locks : Locks) (mid : MessageId) (e : String)
    (_hmem : mid ∈ store chatId) (_hfail : del chatId mid = Except.error e) :
    (clean_chat "private" chatId cmdMid del store locks).deletes
        = (store chatId).map (fun m => (chatId, m)) ∧
    (clean_chat "private" chatId cmdMid del store locks).store chatId = [cmdMid] := by
  constructor
  · simp [clean_chat, deleteLoop_eq_map]
  · simp [clean_chat, updateStore]

/-- C3 witness: with every deletion failing on a three-element snapshot,
all three deletions are still attempted and the store is still reset. -/
theorem clean_chat_deletion_failure_tolerant_witness :
    4 ∈ ((fun _ => [3, 4, 5] : Store) 1) ∧
    (fun _ _ => (Except.error "boom" : Except String Unit)) 1 4
        = Except.error "boom" ∧
    (clean_chat "private" 1 9 (fun _ _ => Except.error "boom")
        (fun _ => [3, 4, 5]) ⟨fun _ => none, 0⟩).deletes
        = [(1, 3), (1, 4), (1, 5)] ∧
    (clean_chat "private" 1 9 (fun _ _ => Except.error "boom")
        (fun _ => [3, 4, 5]) ⟨fun _ => none, 0⟩).store 1 = [9] := by
  refine ⟨by decide, rfl, ?_, ?_⟩
  · exact (clean_chat_deletion_failure_tolerant 1 9 _ _ _ 4 "boom"
      (by decide) rfl).1.trans (by decide)
  · exact (clean_chat_deletion_failure_tolerant 1 9 _ _ _ 4 "boom"
      (by decide) rfl).2

/-- C4: a cleanup cycle in a non-private chat attempts no deletion,
leaves the store completely unchanged, and leaves the lock registry
unchanged as well. -/
theorem clean_chat_nonprivate_noop (chatType : String) (chatId : ChatId)
    (cmdMid : MessageId) (del : ChatId → MessageId → Except String Unit)
    (store : Store) (locks : Locks) (h : chatType ≠ "private") :
    clean_chat chatType chatId cmdMid del store locks = ⟨store, locks, []⟩ := by
  unfold clean_chat
  rw [if_pos h]

/-- C4 witness: a group-chat cleanup call is a no-op on a concrete
state. -/
theorem clean_chat_nonprivate_noop_witness :
    clean_chat "group" 1 2 (fun _ _ => Except.ok ()) (fun _ => [3])
        ⟨fun _ => none, 0⟩
      = ⟨fun _ => [3], ⟨fun _ => none, 0⟩, []⟩ :=
  clean_chat_nonprivate_noop "group" 1 2 _ _ _ (by decide)

/-- C6: `_ensure_lock` returns the registered lock when one exists (and
changes nothing), otherwise stores the lock it returns; a second call
for the same chat returns the very same lock and changes nothing; and no
registry entry is ever evicted by a call. -/
theorem ensure_lock_spec (s : Locks) (c c' : ChatId) (l l' : Nat) :
    (s.registry c = some l → ensure_lock c s = (l, s)) ∧
    (ensure_lock c s).2.registry c = some (ensure_lock c s).1 ∧
    ensure_lock c (ensure_lock c s).2 = ((ensure_lock c s).1, (ensure_lock c s).2) ∧
    (s.registry c' = some l' → (ensure_lock c s).2.registry c' = some l') := by
  cases hr : s.registry c with
  | some lk =>
      refine ⟨fun h => ?_, ?_, ?_, fun h => ?_⟩
      · have hl : lk = l := Option.some.inj h
        subst hl
        simp [ensure_lock, hr]
      · simp [ensure_lock, hr]
      · simp [ensure_lock, hr]
      · simp [ensure_lock, hr, h]
  | none =>
      refine ⟨fun h => ?_, ?_, ?_, fun h => ?_⟩
      · exact absurd h (by simp [hr])
      · simp [ensure_lock, hr]
      · simp [ensure_lock, hr]
      · by_cases hc : c' = c
        · subst hc
          exact absurd h (by simp [hr])
        · simpa [ensure_lock, hr, hc] using h

/-- C6 witness: on a concrete registry holding lock `7` for chat `0`,
a call for chat `0` returns lock `7` and changes nothing, and a call for
chat `1` (which allocates lock `8`) keeps chat `0`'s entry. -/
theorem ensure_lock_spec_witness :
    ensure_lock 0 ⟨fun c => if c = 0 then some 7 else none, 8⟩
      = (7, ⟨fun c => if c = 0 then some 7 else none, 8⟩) ∧
    (ensure_lock 1 ⟨fun c => if c = 0 then some 7 else none, 8⟩).2.registry 0
      = some 7 :=
  ⟨(ensure_lock_spec ⟨fun c => if c = 0 then some 7 else none, 8⟩ 0 0 7 7).1 rfl,
   (ensure_lock_spec ⟨fun c => if c = 0 then some 7 else none, 8⟩ 1 0 7 7).2.2.2 rfl⟩

/-- C7: a cleanup cycle for chat `c1` leaves the tracked set and lock
entry of every other chat `c2` unchanged and attempts no deletion in
`c2`. -/
theorem clean_chat_other_chat_frame (chatType : String) (c1 c2 : ChatId)
    (cmdMid : MessageId) (del : ChatId → MessageId → Except String Unit)
    (store : Store) (locks : Locks) (h : c2 ≠ c1) :
    (clean_chat chatType c1 cmdMid del store locks).store c2 = store c2 ∧
    (clean_chat chatType c1 cmdMid del store locks).locks.registry c2
        = locks.registry c2 ∧
    ∀ m : MessageId, (c2, m) ∉ (clean_chat chatType c1 cmdMid del store locks).deletes := by
  by_cases hT : chatType = "private"
  · subst hT
    refine ⟨?_, ?_, ?_⟩
    · simp [clean_chat, updateStore, h]
    · simp [clean_chat, ensure_lock_frame c1 c2 locks h]
    · intro m hm
      simp [clean_chat, deleteLoop_eq_map] at hm
      exact h hm.2.symm
  · rw [clean_chat_nonprivate_noop chatType c1 cmdMid del store locks hT]
    simp

/-- C7 witness: a private-chat cleanup for chat `1` leaves chat `2`'s
store and lock entries unchanged. -/
theorem clean_chat_other_chat_frame_witness :
    (clean_chat "private" 1 9 (fun _ _ => Except.ok ()) (fun _ => [3])
        ⟨fun _ => none, 0⟩).store 2 = [3] ∧
    (clean_chat "private" 1 9 (fun _ _ => Except.ok ()) (fun _ => [3])
        ⟨fun _ => none, 0⟩).locks.registry 2 = none :=
  ⟨(clean_chat_other_chat_frame "private" 1 2 9 _ _ _ (by decide)).1,
   (clean_chat_other_chat_frame "private" 1 2 9 _ _ _ (by decide)).2.1⟩

/-- C5: after any completed invocation of the status or run handler (no
exception escaped, so the tracking block ran), the chat's tracked set is
exactly the command message id followed by the reply message id — a total
overwrite of length two, never an accumulation. -/
theorem handlers_commit_overwrite_invariant (chatType : String) (chatId : ChatId)
    (cmdMid : MessageId) (getC : Except DockerErr String)
    (startRes : Except DockerErr Unit)
    (del : ChatId → MessageId → Except String Unit)
    (sends : Nat → Except String MessageId)
    (store : Store) (locks : Locks) :
    ((status_pvzge_command chatType chatId cmdMid getC del sends store locks).raised
        = false →
      ∃ r, (status_pvzge_command chatType chatId cmdMid getC del sends store
        locks).store chatId = [cmdMid, r]) ∧
    ((run_pvz_command chatType chatId cmdMid getC startRes del sends store
        locks).raised = false →
      ∃ r, (run_pvz_command chatType chatId cmdMid getC startRes del sends store
        locks).store chatId = [cmdMid, r]) := by
  constructor
  · intro hr
    unfold status_pvzge_command at hr ⊢
    cases getC with
    | ok status =>
        cases h0 : sends 0 with
        | ok r0 => exact ⟨r0, by simp [h0, record_exchange, updateStore]⟩
        | error e0 =>
            cases h1 : sends 1 with
            | ok r1 => exact ⟨r1, by simp [h0, h1, record_exchange, updateStore]⟩
            | error e1 => simp [h0, h1] at hr
    | error err =>
        cases err
        all_goals
          cases h0 : sends 0 with
          | ok r0 => exact ⟨r0, by simp [h0, record_exchange, updateStore]⟩
          | error e0 => simp [h0] at hr
  · intro hr
    unfold run_pvz_command at hr ⊢
    cases getC with
    | ok status =>
        by_cases hs : status = "running"
        · cases h0 : sends 0 with
          | ok r0 => exact ⟨r0, by simp [hs, h0, record_exchange, updateStore]⟩
          | error e0 =>
              cases h1 : sends 1 with
              | ok r1 =>
                  exact ⟨r1, by simp [hs, h0, h1, record_exchange, updateStore]⟩
              | error e1 => simp [hs, h0, h1] at hr
        · cases hst : startRes with
          | ok u =>
              cases h0 : sends 0 with
              | ok r0 =>
                  exact ⟨r0, by simp [hs, hst, h0, record_exchange, updateStore]⟩
              | error e0 =>
                  cases h1 : sends 1 with
                  | ok r1 =>
                      exact ⟨r1, by simp [hs, hst, h0, h1, record_exchange,
                        updateStore]⟩
                  | error e1 => simp [hs, hst, h0, h1] at hr
          | error err2 =>
              cases err2
              all_goals
                cases h0 : sends 0 with
                | ok r0 =>
                    exact ⟨r0, by simp [hs, hst, h0, record_exchange, updateStore]⟩
                | error e0 => simp [hs, hst, h0] at hr
    | error err =>
        cases err
        all_goals
          cases h0 : sends 0 with
          | ok r0 => exact ⟨r0, by simp [h0, record_exchange, updateStore]⟩
          | error e0 => simp [h0] at hr

/-- C5 witness: a concrete completed status-handler invocation ends with
the store holding exactly the command and reply ids. -/
theorem handlers_commit_overwrite_invariant_witness :
    ∃ r, (status_pvzge_command "private" 1 2 (Except.ok "running")
        (fun _ _ => Except.ok ()) (fun _ => Except.ok 50) (fun _ => [])
        ⟨fun _ => none, 0⟩).store 1 = [2, r] :=
  (handlers_commit_overwrite_invariant "private" 1 2 (Except.ok "running")
      (Except.ok ()) (fun _ _ => Except.ok ()) (fun _ => Except.ok 50)
      (fun _ => []) ⟨fun _ => none, 0⟩).1 rfl

/-- C8: on a found container the run handler calls `start` exactly when
the status is not `running`; with the sends succeeding, a running
container yields the already-running reply and no start call, and a
non-running container (with `start` succeeding) yields exactly the
started reply. -/
theorem run_pvz_start_iff (chatType : String) (chatId : ChatId)
    (cmdMid : MessageId) (status : String) (startRes : Except DockerErr Unit)
    (del : ChatId → MessageId → Except String Unit)
    (sends : Nat → Except String MessageId)
    (store : Store) (locks : Locks) :
    ((run_pvz_command chatType chatId cmdMid (Except.ok status) startRes del sends
        store locks).startCalled = true ↔ status ≠ "running") ∧
    (status = "running" → ∀ r, sends 0 = Except.ok r →
      (run_pvz_command chatType chatId cmdMid (Except.ok status) startRes del sends
        store locks).texts
        = ["The Plants vs. Zombies container is already running, opening in browser..."]) ∧
    (status ≠ "running" → startRes = Except.ok () → ∀ r, sends 0 = Except.ok r →
      (run_pvz_command chatType chatId cmdMid (Except.ok status) startRes del sends
        store locks).texts
        = ["The Plants vs. Zombies container has been started. Open http://localhost:8080"]) := by
  by_cases hs : status = "running"
  · subst hs
    refine ⟨?_, ?_, ?_⟩
    · cases h0 : sends 0 with
      | ok r0 => simp [run_pvz_command, h0]
      | error e0 =>
          cases h1 : sends 1 with
          | ok r1 => simp [run_pvz_command, h0, h1]
          | error e1 => simp [run_pvz_command, h0, h1]
    · intro _ r hr0
      simp [run_pvz_command, hr0]
    · intro hns
      exact absurd rfl hns
  · refine ⟨?_, ?_, ?_⟩
    · cases hst : startRes with
      | ok u =>
          cases h0 : sends 0 with
          | ok r0 => simp [run_pvz_command, hs, hst, h0]
          | error e0 =>
              cases h1 : sends 1 with
              | ok r1 => simp [run_pvz_command, hs, hst, h0, h1]
              | error e1 => simp [run_pvz_command, hs, hst, h0, h1]
      | error err =>
          cases err
          all_goals
            cases h0 : sends 0 with
            | ok r0 => simp [run_pvz_command, hs, hst, h0]
            | error e0 => simp [run_pvz_command, hs, hst, h0]
    · intro hr
      exact absurd hr hs
    · intro _ hst r hr0
      simp [run_pvz_command, hs, hst, hr0]

/-- C8 witness: concrete runs — a running container is not started and
gets the already-running reply; an exited container is started and gets
exactly the started reply. -/
theorem run_pvz_start_iff_witness :
    (run_pvz_command "private" 1 2 (Except.ok "running") (Except.ok ())
        (fun _ _ => Except.ok ()) (fun _ => Except.ok 50) (fun _ => [])
        ⟨fun _ => none, 0⟩).texts
      = ["The Plants vs. Zombies container is already running, opening in browser..."] ∧
    (run_pvz_command "private" 1 2 (Except.ok "exited") (Except.ok ())
        (fun _ _ => Except.ok ()) (fun _ => Except.ok 50) (fun _ => [])
        ⟨fun _ => none, 0⟩).texts
      = ["The Plants vs. Zombies container has been started. Open http://localhost:8080"] ∧
    (run_pvz_command "private" 1 2 (Except.ok "exited") (Except.ok ())
        (fun _ _ => Except.ok ()) (fun _ => Except.ok 50) (fun _ => [])
        ⟨fun _ => none, 0⟩).startCalled = true :=
  ⟨(run_pvz_start_iff "private" 1 2 "running" (Except.ok ()) _ _ _ _).2.1 rfl 50 rfl,
   (run_pvz_start_iff "private" 1 2 "exited" (Except.ok ()) _ _ _ _).2.2
     (by decide) rfl 50 rfl,
   (run_pvz_start_iff "private" 1 2 "exited" (Except.ok ()) _ _ _ _).1.mpr
     (by decide)⟩

/-- C9: the weather command maps each outcome to exactly one reply —
empty args give the usage reply with no service call, a 404 response
gives exactly the city-not-found reply for the queried city, and any
other non-success response status gives the generic retry-later reply. -/
theorem weather_command_replies (args : List String) (body : WeatherBody)
    (fetch : FetchResult) (code : Nat) :
    (weather_command [] fetch).texts = ["Usage: /weather <city>"] ∧
    (weather_command [] fetch).serviceCalled = false ∧
    (args ≠ [] →
      (weather_command args (FetchResult.response 404 body)).texts
        = ["City \x27" ++ pyStrip (String.intercalate " " args) ++ "\x27 not found."]) ∧
    (args ≠ [] → code ≠ 404 → code ≠ 200 →
      (weather_command args (FetchResult.response code body)).texts
        = ["Error fetching weather data. Please try again later."]) := by
  refine ⟨rfl, rfl, fun h => ?_, fun h h404 h200 => ?_⟩
  · have hne : args.isEmpty = false := by simp [List.isEmpty_iff, h]
    simp [weather_command, hne]
  · have hne : args.isEmpty = false := by simp [List.isEmpty_iff, h]
    simp [weather_command, hne, h404, h200]

/-- C9 witness: a concrete two-word city — 404 yields the not-found
reply, 500 yields the retry-later reply. -/
theorem weather_command_replies_witness :
    (["Lon", "don"] ≠ ([] : List String)) ∧
    (weather_command ["Lon", "don"]
        (FetchResult.response 404 ⟨none, none, none, none⟩)).texts
      = ["City \x27Lon don\x27 not found."] ∧
    (weather_command ["Lon", "don"]
        (FetchResult.response 500 ⟨none, none, none, none⟩)).texts
      = ["Error fetching weather data. Please try again later."] := by
  refine ⟨by decide, ?_, ?_⟩
  · exact ((weather_command_replies ["Lon", "don"] ⟨none, none, none, none⟩
      (FetchResult.response 404 ⟨none, none, none, none⟩) 500).2.2.1
        (by decide)).trans (by decide)
  · exact (weather_command_replies ["Lon", "don"] ⟨none, none, none, none⟩
      (FetchResult.response 500 ⟨none, none, none, none⟩) 500).2.2.2
        (by decide) (by decide) (by decide)

/-- Bridging lemma: the executable substring check agrees with the
substring relation on lists. -/
theorem containsSub_iff_substring (needle hay : List Char) :
    containsSub needle hay = true ↔ needle <:+: hay := by
  induction hay with
  | nil => simp [containsSub, List.isEmpty_iff, List.infix_nil]
  | cons c t ih =>
      simp [containsSub, Bool.or_eq_true, ih, List.isPrefixOf_iff_prefix,
        List.infix_cons_iff]

/-- C10: the free-text responder is total and deterministic — it answers
`Hey` exactly when the lowercased text contains the substring `hello`
and `What?` in every other case; and in a group chat a message that does
not contain the bot name gets no reply at all. -/
theorem response_handler_spec (text : String) :
    (response_handler text = "Hey" ↔ "hello".toList <:+: (pyLower text).toList) ∧
    (response_handler text = "Hey" ∨ response_handler text = "What?") ∧
    (containsSub BOT_NAME.toList text.toList = false →
      message_handler "group" text = none) := by
  refine ⟨?_, ?_, fun h => ?_⟩
  · cases hc : containsSub "hello".toList (pyLower text).toList with
    | true =>
        have he : response_handler text = "Hey" := by
          simp only [response_handler]
          rw [hc]
          simp
        rw [he]
        exact iff_of_true rfl ((containsSub_iff_substring _ _).mp hc)
    | false =>
        have he : response_handler text = "What?" := by
          simp only [response_handler]
          rw [hc]
          simp
        rw [he]
        refine iff_of_false (by decide) fun hi => ?_
        rw [(containsSub_iff_substring _ _).mpr hi] at hc
        exact absurd hc (by decide)
  · cases hc : containsSub "hello".toList (pyLower text).toList with
    | true =>
        refine Or.inl ?_
        simp only [response_handler]
        rw [hc]
        simp
    | false =>
        refine Or.inr ?_
        simp only [response_handler]
        rw [hc]
        simp
  · simp only [message_handler]
    rw [h]
    simp

/-- C10 witness: a concrete group message without the bot name gets no
reply, and a concrete text containing `HELLO` gets `Hey`. -/
theorem response_handler_spec_witness :
    containsSub BOT_NAME.toList "just chatting".toList = false ∧
    message_handler "group" "just chatting" = none ∧
    response_handler "Well HELLO there" = "Hey" :=
  ⟨by decide,
   (response_handler_spec "just chatting").2.2 (by decide),
   (response_handler_spec "Well HELLO there").1.mpr
     ((containsSub_iff_substring _ _).mp (by decide))⟩

end TgBot
